import Mathlib

set_option linter.unusedVariables false

/-!
Verification development for the Ultimate Coding System desktop application
(src/main.py and src/database.py), as a shallow embedding in Lean.

The embedding covers:
* the reply-processing part of IDEWindow.send_to_ai (regular-expression
  scrape of the model reply, json.loads modelled as an oracle, the skill
  update loop);
* the Database class operations (create_tables, _seed_initial_projects,
  create_user, get_skills, update_skill_level, get_all_projects) over an
  explicit sqlite-file state, including which tables exist and which
  states are made durable by conn.commit();
* IDEWindow.run_code as the ordered trace of its effects;
* IDEWindow.show_projects together with the set of method names the
  Database class actually defines (Python attribute lookup).
-/

/-- The ASCII whitespace characters removed by Python str.strip(). -/
def pyWhitespaceChars : List Char := [' ', '\t', '\n', '\x0b', '\x0c', '\r']

/-- Python code.strip(): remove leading and trailing whitespace
(main.py line 329: code = self.code_editor.toPlainText().strip()). -/
def pyStrip (s : String) : String :=
  ⟨((s.data.dropWhile pyWhitespaceChars.contains).reverse.dropWhile
      pyWhitespaceChars.contains).reverse⟩

/-- Whether the pattern pat occurs in the character list s at index i. -/
def matchesAt (s pat : List Char) (i : Nat) : Bool :=
  (s.drop i).take pat.length == pat

/-- Python substring test, pat in s. -/
def pyContains (s pat : String) : Bool :=
  (List.range (s.data.length + 1)).any (fun i => matchesAt s.data pat.data i)

/-- The literal "updates" (quotes included) from the regular expression
in send_to_ai (main.py line 171). -/
def updatesLit : List Char := "\"updates\"".data

/-- re.search of the DOTALL pattern brace .* "updates" .* brace on the
reply (main.py line 171), returning group(0) of the leftmost match with
the usual greedy extents: the match starts at the first opening brace
that is followed (at distance at least one) by the quoted literal
"updates" with a closing brace after it, and ends at the last such
closing brace. -/
def reSearchUpdates (resp : String) : Option String :=
  let s := resp.data
  let n := s.length
  let qOk : Nat → Bool := fun q =>
    matchesAt s updatesLit q &&
      (List.range n).any (fun r =>
        decide (q + updatesLit.length ≤ r) && (s.get? r == some '\x7d'))
  let pOk : Nat → Bool := fun p =>
    (s.get? p == some '\x7b') &&
      (List.range n).any (fun q => decide (p + 1 ≤ q) && qOk q)
  match (List.range n).filter pOk with
  | [] => none
  | p :: _ =>
    match ((List.range n).filter (fun q => decide (p + 1 ≤ q) && qOk q)).getLast? with
    | none => none
    | some q =>
      match ((List.range n).filter (fun r =>
          decide (q + updatesLit.length ≤ r) && (s.get? r == some '\x7d'))).getLast? with
      | none => none
      | some r => some ⟨(s.drop p).take (r + 1 - p)⟩

/-- The values json.loads can return (JSON numbers modelled as integers;
Python bool kept separate because it is a distinct runtime type that
still supports integer addition). -/
inductive Json where
  | null : Json
  | bool (b : Bool) : Json
  | num (n : Int) : Json
  | str (s : String) : Json
  | arr (xs : List Json) : Json
  | obj (fields : List (String × Json)) : Json

/-- Python data.get("updates", braces) on the value returned by
json.loads (main.py line 175): defined only when the value is a dict,
otherwise an AttributeError is raised (none). A dict without the key
yields the empty dict default. -/
def pyDictGet (data : Json) : Option Json :=
  match data with
  | .obj fields => some (((fields.find? (fun f => f.1 == "updates")).map Prod.snd).getD (.obj []))
  | _ => none

/-- Python .items() on the value fetched for "updates": defined only on a
dict, otherwise an AttributeError is raised (none). -/
def pyDictItems : Json → Option (List (String × Json))
  | .obj fields => some fields
  | _ => none

/-- Database.update_skill_level (database.py lines 78-85) restricted to
the rows of one user, which are the only rows send_to_ai touches: the
SELECT fetches the level of the named row, and the UPDATE stores
max(0, min(100, current + delta)) in every row with that name. The
caller in send_to_ai only reaches this with a name that is present, so
the none branch (where Python would raise on fetchone()[0]) is dead
there. -/
def updateSkillList (skills : List (String × Int)) (nm : String) (delta : Int) :
    List (String × Int) :=
  match skills.find? (fun p => p.1 == nm) with
  | none => skills
  | some p =>
    skills.map (fun q => if q.1 == nm then (q.1, max 0 (min 100 (p.2 + delta))) else q)

/-- The for loop of send_to_ai (main.py lines 175-177) over the parsed
updates entries: an entry whose name is among the current skill names
calls update_skill_level with its delta (a number or a bool, since
Python bools add like integers); an entry with any other value type for
a known name raises inside the loop (second component false: the try
block aborts, keeping the updates applied so far); an unknown name is
skipped. The second component is true when the loop ran to completion. -/
def applyUpdatesLoop : List (String × Int) → List (String × Json) →
    List (String × Int) × Bool
  | skills, [] => (skills, true)
  | skills, (nm, v) :: rest =>
    if (skills.map Prod.fst).contains nm then
      match v with
      | .num d => applyUpdatesLoop (updateSkillList skills nm d) rest
      | .bool b => applyUpdatesLoop (updateSkillList skills nm (if b then 1 else 0)) rest
      | _ => (skills, false)
    else applyUpdatesLoop skills rest

/-- The suffix appended to the reply when the update loop completes
(main.py line 179). -/
def updatedSuffix : String := "\n\n🎉 Your skills have been updated!"

/-- The suffix appended when the lowered reply mentions completion
(main.py line 187). -/
def completedSuffix : String :=
  "\n\n🏆 Amazing work! +Extra skill boost for completion coming soon."

/-- The try block of send_to_ai around the scrape (main.py lines
168-181): search the reply for the JSON fragment; feed group(0) to
json.loads (passed in as the oracle loads, none meaning the call
raised); fetch the updates dict and its items (none meaning an
AttributeError); run the update loop; on full completion append the
celebration suffix to the reply. Any exception is swallowed, leaving
skills and reply as they stand at that point. -/
def send_to_ai_scrape (skills : List (String × Int)) (resp : String)
    (loads : String → Option Json) : List (String × Int) × String :=
  match reSearchUpdates resp with
  | none => (skills, resp)
  | some frag =>
    match loads frag with
    | none => (skills, resp)
    | some data =>
      match pyDictGet data with
      | none => (skills, resp)
      | some upd =>
        match pyDictItems upd with
        | none => (skills, resp)
        | some entries =>
          let res := applyUpdatesLoop skills entries
          if res.2 then (res.1, resp ++ updatedSuffix) else (res.1, resp)

/-- The whole reply-processing tail of send_to_ai (main.py lines
168-191): the scrape, then the completion check on the lowered reply
(main.py lines 184-187), returning the final skill rows and the text
displayed in the chat by _add_chat_message. -/
def send_to_ai_reply (skills : List (String × Int)) (resp : String)
    (loads : String → Option Json) : List (String × Int) × String :=
  let t := send_to_ai_scrape skills resp loads
  let lower := String.toLower t.2
  if pyContains lower "completed" || pyContains lower "finished" then
    (t.1, t.2 ++ completedSuffix)
  else t

/-- One row of the projects table (database.py lines 26-40): autoincrement
id, title, description, and the ten per-skill difficulty columns. -/
structure ProjectRow where
  id : Nat
  title : String
  description : String
  difficulties : List Int
deriving DecidableEq

/-- The state of the sqlite file user.db: which of the three tables the
schema currently contains, the rows of each table, and the next
AUTOINCREMENT ids. The rows of users and projects are kept in insertion
order, which coincides with ascending id order because ids are assigned
by AUTOINCREMENT. -/
structure DBState where
  hasUsers : Bool
  hasSkills : Bool
  hasProjects : Bool
  users : List (Nat × String)
  skills : List (Nat × String × Int)
  projects : List ProjectRow
  nextUserId : Nat
  nextProjectId : Nat
deriving DecidableEq

/-- The sqlite errors the Database operations can raise: an
sqlite3.OperationalError for a statement over a table missing from the
schema, and the TypeError raised by fetchone()[0] when the SELECT in
update_skill_level matched no row. -/
inductive DBError where
  | noSuchTable (t : String) : DBError
  | noneSubscript : DBError
deriving DecidableEq

/-- The five starter projects inserted by _seed_initial_projects
(database.py lines 52-63), with their AUTOINCREMENT ids 1 to 5. -/
def seedProjects : List ProjectRow :=
  [⟨1, "Hello World Enhancements",
    "Build a CLI that greets, takes name/input, and handles errors gracefully.",
    [15, 5, 0, 10, 0, 15, 0, 5, 0, 20]⟩,
   ⟨2, "Todo List with Persistence",
    "Console todo app that saves to JSON file. Add/remove/list.",
    [25, 35, 15, 25, 0, 45, 5, 15, 10, 35]⟩,
   ⟨3, "Binary Search Tree",
    "Implement BST with insert/search/delete and unit tests.",
    [20, 45, 70, 35, 0, 60, 0, 40, 15, 30]⟩,
   ⟨4, "Flask REST API",
    "Build a simple CRUD API for a resource (e.g., books) with routes and validation.",
    [45, 40, 25, 45, 30, 55, 10, 35, 20, 45]⟩,
   ⟨5, "Multi-threaded Chat Server",
    "TCP server handling multiple clients with threading and clean architecture.",
    [55, 50, 40, 65, 75, 65, 20, 45, 55, 55]⟩]

/-- Database.create_tables (database.py lines 20-43): its only DDL
statement is CREATE TABLE IF NOT EXISTS projects — the comment on line
22 notwithstanding, no statement creates the users or skills tables —
followed by _seed_initial_projects (lines 45-71), which inserts the five
starter projects when the projects table is empty. -/
def create_tables (s : DBState) : DBState :=
  let s1 : DBState := { s with hasProjects := true }
  if s1.projects.length > 0 then s1
  else { s1 with projects := seedProjects, nextProjectId := 6 }

/-- The state of a freshly created, empty database file, before
Database.__init__ runs create_tables. -/
def freshDB : DBState :=
  { hasUsers := false, hasSkills := false, hasProjects := false,
    users := [], skills := [], projects := [],
    nextUserId := 1, nextProjectId := 1 }

/-- The state right after Database() on a freshly created database file:
__init__ (database.py lines 6-18) connects and calls create_tables. -/
def initDB : DBState := create_tables freshDB

/-- Database.get_all_projects (database.py lines 73-76): SELECT id,
title, description FROM projects ORDER BY id. Read-only. -/
def get_all_projects (s : DBState) : Except DBError (List (Nat × String × String)) :=
  if s.hasProjects then
    Except.ok (s.projects.map (fun p => (p.id, p.title, p.description)))
  else Except.error (DBError.noSuchTable "projects")

/-- Database.get_skills (database.py lines 103-106): SELECT skill_name,
level FROM skills WHERE user_id = ?. Read-only. -/
def get_skills (s : DBState) (uid : Nat) : Except DBError (List (String × Int)) :=
  if s.hasSkills then
    Except.ok ((s.skills.filter (fun r => r.1 == uid)).map (fun r => (r.2.1, r.2.2)))
  else Except.error (DBError.noSuchTable "skills")

/-- Database.update_skill_level (database.py lines 78-85): SELECT the
current level of the (user_id, skill_name) row — fetchone()[0] raising
when there is none — then UPDATE every matching row to
max(0, min(100, current + delta)) and commit. Only the skills rows
change. -/
def update_skill_level (s : DBState) (uid : Nat) (nm : String) (delta : Int) :
    Except DBError DBState :=
  if s.hasSkills then
    match s.skills.find? (fun r => r.1 == uid && r.2.1 == nm) with
    | none => Except.error DBError.noneSubscript
    | some r =>
      let newSkills := s.skills.map (fun q =>
        if q.1 == uid && q.2.1 == nm then (q.1, q.2.1, max 0 (min 100 (r.2.2 + delta)))
        else q)
      Except.ok { s with skills := newSkills }
  else Except.error (DBError.noSuchTable "skills")

/-- The ten skill names create_user seeds (database.py lines 93-97). -/
def initialSkillNames : List String :=
  ["Python Syntax", "Data Structures", "Algorithms", "Debugging",
   "System Design", "Problem Solving", "Version Control",
   "Testing and QA", "Performance Optimization", "Code Readability / Maintenance"]

/-- Database.create_user (database.py lines 87-101): INSERT the users row
and commit; then INSERT the ten level-0 skills rows and commit again.
Returns the result of the call (the new user id, or the error raised),
the state the connection is left in, and the list of states made durable
by conn.commit(), in order. An error on a statement aborts the method
but keeps what was already committed. -/
def create_user (s : DBState) (name : String) :
    Except DBError Nat × DBState × List DBState :=
  if s.hasUsers then
    let uid := s.nextUserId
    let s1 : DBState := { s with users := s.users ++ [(uid, name)], nextUserId := uid + 1 }
    if s.hasSkills then
      let s2 : DBState := { s1 with skills :=
        s1.skills ++ initialSkillNames.map (fun n => (uid, n, (0 : Int))) }
      (Except.ok uid, s2, [s1, s2])
    else (Except.error (DBError.noSuchTable "skills"), s1, [s1])
  else (Except.error (DBError.noSuchTable "users"), s, [])

/-- The startup query of IDEWindow._setup_profile (main.py line 231):
SELECT COUNT(*) FROM users. -/
def count_users (s : DBState) : Except DBError Nat :=
  if s.hasUsers then Except.ok s.users.length
  else Except.error (DBError.noSuchTable "users")

/-- A database file in which all three tables exist (for example one
left behind by an earlier version of the code whose create_tables still
created users and skills, as the comment on database.py line 22
recalls), with the projects already seeded and no user yet. -/
def dbReady : DBState :=
  { hasUsers := true, hasSkills := true, hasProjects := true,
    users := [], skills := [], projects := seedProjects,
    nextUserId := 1, nextProjectId := 6 }

/-- What the child process did: its exit code and the complete stdout and
stderr streams that process.communicate() returns once the child has
terminated. -/
structure ChildResult where
  returncode : Int
  stdout : String
  stderr : String
deriving DecidableEq

/-- The effects of IDEWindow.run_code (main.py lines 328-358), in the
order the method performs them. writeTempFile records the text written
to the NamedTemporaryFile with suffix .py; spawnChild is the
subprocess.Popen of [sys.executable, temp_path], a child process of the
current Python interpreter; communicate is the process.communicate()
call, which returns only after the child has exited, carrying its
complete stdout and stderr; unlinkTempFile is the os.unlink of the
temporary file; setOutputLabel is self.output_label.setText. -/
inductive RunEvent where
  | writeTempFile (contents : String) : RunEvent
  | spawnChild : RunEvent
  | communicate (stdout stderr : String) : RunEvent
  | unlinkTempFile : RunEvent
  | setOutputLabel (text : String) : RunEvent
deriving DecidableEq

/-- The label text chosen by run_code (main.py lines 352-356) after the
child has exited: on return code 0, SUCCESS with the captured stdout,
falling back to a fixed sentence when stdout is empty (Python
truthiness of the string); otherwise ERROR with the return code and the
captured stderr, falling back to stdout when stderr is empty. -/
def runLabel (c : ChildResult) : String :=
  if c.returncode = 0 then
    "✅ SUCCESS\n" ++ (if c.stdout = "" then "Code ran successfully! (No output)" else c.stdout)
  else
    "❌ ERROR (Code " ++ toString c.returncode ++ ")\n" ++
      (if c.stderr = "" then c.stdout else c.stderr)

/-- IDEWindow.run_code (main.py lines 328-358) as the ordered trace of
its effects, given the behaviour of the child process: the editor text
is stripped; empty text only sets the label; otherwise the stripped text
is written to a temporary .py file, the current interpreter is spawned
on it, communicate() waits for it to exit and collects both streams, the
temporary file is deleted, and finally the label is set. -/
def run_code (code : String) (child : ChildResult) : List RunEvent :=
  let stripped := pyStrip code
  if stripped = "" then [RunEvent.setOutputLabel "No code to run."]
  else
    [RunEvent.writeTempFile stripped,
     RunEvent.spawnChild,
     RunEvent.communicate child.stdout child.stderr,
     RunEvent.unlinkTempFile,
     RunEvent.setOutputLabel (runLabel child)]

/-- The method names the Database class defines (database.py lines
5-106). Python attribute lookup on a Database instance succeeds exactly
for these names (plus inherited object attributes, none of which is
named like a projects query). -/
def databaseMethods : List String :=
  ["__init__", "create_tables", "_seed_initial_projects", "get_all_projects",
   "update_skill_level", "create_user", "get_skills"]

/-- IDEWindow.show_projects (main.py lines 309-320): its first statement
evaluates self.db.get_user_projects, a Python attribute lookup on the
Database instance. When the attribute is missing the lookup raises
AttributeError before anything else in the method runs, so no chat
message is appended; the branch where the attribute exists (in which the
method would build and append the project-curriculum message) is dead
for the Database class as written. -/
def show_projects (chat : List (String × String)) :
    Except String (List (String × String)) :=
  if databaseMethods.contains "get_user_projects" then
    Except.ok (chat ++ [("assistant", "Your Project Curriculum:\n\n")])
  else
    Except.error "AttributeError: Database object has no attribute get_user_projects"

/-- C9: create_tables creates only the projects table and never the
users or skills tables, so on a freshly created database file every
operation touching users or skills — create_user, get_skills,
update_skill_level, and the startup SELECT COUNT(*) FROM users of
_setup_profile — raises a no-such-table sqlite error. -/
theorem create_tables_only_projects :
    (∀ s : DBState, (create_tables s).hasUsers = s.hasUsers
      ∧ (create_tables s).hasSkills = s.hasSkills
      ∧ (create_tables s).hasProjects = true)
    ∧ initDB.hasUsers = false ∧ initDB.hasSkills = false ∧ initDB.hasProjects = true
    ∧ (∀ nm, (create_user initDB nm).1 = Except.error (DBError.noSuchTable "users"))
    ∧ (∀ uid, get_skills initDB uid = Except.error (DBError.noSuchTable "skills"))
    ∧ (∀ uid nm d, update_skill_level initDB uid nm d =
        Except.error (DBError.noSuchTable "skills"))
    ∧ count_users initDB = Except.error (DBError.noSuchTable "users") := by
  refine ⟨fun s => ⟨?_, ?_, ?_⟩, rfl, rfl, rfl, fun nm => rfl, fun uid => rfl,
    fun uid nm d => rfl, rfl⟩
  · unfold create_tables; dsimp only; split <;> rfl
  · unfold create_tables; dsimp only; split <;> rfl
  · unfold create_tables; dsimp only; split <;> rfl

/-- C10: the Database class defines no method named get_user_projects,
so show_projects raises AttributeError on every invocation, for every
chat state, and never appends the project-curriculum message. -/
theorem show_projects_attribute_error (chat : List (String × String)) :
    show_projects chat =
        Except.error "AttributeError: Database object has no attribute get_user_projects"
      ∧ (∀ msgs, show_projects chat ≠ Except.ok msgs)
      ∧ databaseMethods.contains "get_user_projects" = false := by
  have hc : databaseMethods.contains "get_user_projects" = false := by decide
  refine ⟨?_, ?_, hc⟩
  · unfold show_projects
    rw [hc]
    simp
  · intro msgs h
    unfold show_projects at h
    rw [hc] at h
    simp at h

/-- The connection state after create_user("Default User") on a database
file in which all three tables exist. -/
def c2state : DBState := (create_user dbReady "Default User").2.1

/-- C2 counterexample: create_user is not a single-table operation.
After create_user on dbReady there is no choice of a single table such
that all other tables are unchanged: both the users table and the
skills table differ from before. -/
theorem database_single_table_cex :
    ¬ ((c2state.users = dbReady.users ∧ c2state.skills = dbReady.skills)
      ∨ (c2state.users = dbReady.users ∧ c2state.projects = dbReady.projects)
      ∨ (c2state.skills = dbReady.skills ∧ c2state.projects = dbReady.projects)) := by
  decide

/-- C2 amended: get_skills and get_all_projects each read exactly one
table (their result depends only on that table) and change nothing;
update_skill_level writes only the skills table; create_user however
writes two tables — one new users row and ten new skills rows — leaving
only the projects table unchanged. -/
theorem database_table_frames (s t : DBState) (uid : Nat) (uname snm : String)
    (delta : Int) :
    (s.hasSkills = t.hasSkills → s.skills = t.skills →
      get_skills s uid = get_skills t uid)
    ∧ (s.hasProjects = t.hasProjects → s.projects = t.projects →
        get_all_projects s = get_all_projects t)
    ∧ (∀ s1, update_skill_level s uid snm delta = Except.ok s1 →
        s1.users = s.users ∧ s1.projects = s.projects ∧ s1.hasUsers = s.hasUsers
          ∧ s1.hasSkills = s.hasSkills ∧ s1.hasProjects = s.hasProjects)
    ∧ (∀ uid2, (create_user s uname).1 = Except.ok uid2 →
        ((create_user s uname).2.1).projects = s.projects
          ∧ ((create_user s uname).2.1).users.length = s.users.length + 1
          ∧ ((create_user s uname).2.1).skills.length = s.skills.length + 10) := by
  refine ⟨?_, ?_, ?_, ?_⟩
  · intro h1 h2; unfold get_skills; rw [h1, h2]
  · intro h1 h2; unfold get_all_projects; rw [h1, h2]
  · intro s1 h
    unfold update_skill_level at h
    split at h
    · split at h
      · exact absurd h (by simp)
      · dsimp only at h
        simp only [Except.ok.injEq] at h
        subst h
        exact ⟨rfl, rfl, rfl, rfl, rfl⟩
    · exact absurd h (by simp)
  · intro uid2 h
    cases hu : s.hasUsers with
    | false =>
      unfold create_user at h
      rw [hu] at h
      simp at h
    | true =>
      cases hsk : s.hasSkills with
      | false =>
        unfold create_user at h
        rw [hu, hsk] at h
        simp at h
      | true =>
        unfold create_user
        rw [hu, hsk]
        dsimp only
        refine ⟨rfl, ?_, ?_⟩
        · simp
        · simp [initialSkillNames]

/-- A database state with one user owning one skill row, used to
instantiate the hypotheses of the frame and clamping theorems. -/
def sWit : DBState :=
  { hasUsers := true, hasSkills := true, hasProjects := true,
    users := [(1, "Default User")], skills := [(1, "Python Syntax", 0)],
    projects := seedProjects, nextUserId := 2, nextProjectId := 6 }

/-- The state sWit after update_skill_level(1, "Python Syntax", 5). -/
def sWitUpd : DBState := { sWit with skills := [(1, "Python Syntax", 5)] }

theorem database_table_frames_witness :
    (sWitUpd.users = sWit.users ∧ sWitUpd.projects = sWit.projects
      ∧ sWitUpd.hasUsers = sWit.hasUsers ∧ sWitUpd.hasSkills = sWit.hasSkills
      ∧ sWitUpd.hasProjects = sWit.hasProjects)
    ∧ (((create_user dbReady "Default User").2.1).projects = dbReady.projects
      ∧ ((create_user dbReady "Default User").2.1).users.length = dbReady.users.length + 1
      ∧ ((create_user dbReady "Default User").2.1).skills.length
          = dbReady.skills.length + 10) :=
  ⟨(database_table_frames sWit sWit 1 "n" "Python Syntax" 5).2.2.1 sWitUpd (by rfl),
   (database_table_frames dbReady dbReady 1 "Default User" "x" 0).2.2.2 1 (by rfl)⟩

/-- C4: create_user commits the users row first and the ten skills rows
only in a second commit, so among the durable states there is an
intermediate one in which the new user row exists while none of that
user's skills rows do, and it differs from the final durable state. -/
theorem create_user_intermediate_commit (s : DBState) (name : String)
    (hu : s.hasUsers = true) (hs : s.hasSkills = true)
    (hfresh : ∀ r ∈ s.skills, r.1 ≠ s.nextUserId) :
    ∃ d1 d2, (create_user s name).2.2 = [d1, d2]
      ∧ (s.nextUserId, name) ∈ d1.users
      ∧ d1.skills.filter (fun r => r.1 == s.nextUserId) = []
      ∧ d1 ≠ d2
      ∧ d2 = (create_user s name).2.1 := by
  unfold create_user
  rw [hu, hs]
  dsimp only
  refine ⟨_, _, rfl, ?_, ?_, ?_, rfl⟩
  · simp
  · rw [List.filter_eq_nil_iff]
    intro r hr
    simpa using hfresh r hr
  · intro hEq
    have hlen := congrArg (fun st => st.skills.length) hEq
    simp [initialSkillNames] at hlen

theorem create_user_intermediate_commit_witness :
    ∃ d1 d2, (create_user dbReady "Default User").2.2 = [d1, d2]
      ∧ (dbReady.nextUserId, "Default User") ∈ d1.users
      ∧ d1.skills.filter (fun r => r.1 == dbReady.nextUserId) = []
      ∧ d1 ≠ d2
      ∧ d2 = (create_user dbReady "Default User").2.1 :=
  create_user_intermediate_commit dbReady "Default User" rfl rfl (by simp [dbReady])

/-- Mapping a conditional rewrite over a list moves through find?: if the
rewrite preserves the predicate on the rows it touches, the first match
of the mapped list is the rewrite of the first match of the original. -/
theorem find_map_upd {α : Type} (p : α → Bool) (g : α → α)
    (hg : ∀ x, p x = true → p (g x) = true) :
    ∀ (l : List α) (a : α), l.find? p = some a →
      (l.map (fun x => if p x then g x else x)).find? p = some (g a) := by
  intro l
  induction l with
  | nil => intro a h; simp [List.find?] at h
  | cons b t ih =>
    intro a h
    cases hb : p b with
    | true =>
      rw [List.find?_cons_of_pos _ hb] at h
      simp only [Option.some.injEq] at h
      subst h
      simp only [List.map_cons, if_pos hb]
      rw [List.find?_cons_of_pos _ (hg b hb)]
    | false =>
      rw [List.find?_cons_of_neg _ (by simp [hb])] at h
      simp only [List.map_cons, if_neg (by simp [hb] : ¬ p b = true)]
      rw [List.find?_cons_of_neg _ (by simp [hb])]
      exact ih a h

/-- C8: for an existing (user_id, skill_name) row with stored level cur,
update_skill_level succeeds and stores exactly max(0, min(100, cur +
delta)), which always lies between 0 and 100 inclusive. -/
theorem update_skill_level_clamps (s : DBState) (uid : Nat) (nm : String)
    (delta cur : Int) (hs : s.hasSkills = true)
    (hfind : s.skills.find? (fun r => r.1 == uid && r.2.1 == nm) = some (uid, nm, cur)) :
    ∃ s2, update_skill_level s uid nm delta = Except.ok s2
      ∧ s2.skills.find? (fun r => r.1 == uid && r.2.1 == nm)
          = some (uid, nm, max 0 (min 100 (cur + delta)))
      ∧ 0 ≤ max 0 (min 100 (cur + delta)) ∧ max 0 (min 100 (cur + delta)) ≤ 100 := by
  have hmain : update_skill_level s uid nm delta = Except.ok { s with skills := s.skills.map (fun q => if q.1 == uid && q.2.1 == nm then (q.1, q.2.1, max 0 (min 100 (cur + delta))) else q) } := by
    unfold update_skill_level
    rw [hfind]
    simp [hs]
  refine ⟨_, hmain, ?_, le_max_left 0 _, max_le (by norm_num) (min_le_left 100 _)⟩
  exact find_map_upd (fun r => r.1 == uid && r.2.1 == nm)
    (fun r => (r.1, r.2.1, max 0 (min 100 (cur + delta))))
    (fun x hx => hx) s.skills (uid, nm, cur) hfind

theorem update_skill_level_clamps_witness :
    ∃ s2, update_skill_level sWit 1 "Python Syntax" 300 = Except.ok s2
      ∧ s2.skills.find? (fun r => r.1 == 1 && r.2.1 == "Python Syntax")
          = some (1, "Python Syntax", max 0 (min 100 ((0 : Int) + 300)))
      ∧ 0 ≤ max 0 (min 100 ((0 : Int) + 300))
      ∧ max 0 (min 100 ((0 : Int) + 300)) ≤ 100 :=
  update_skill_level_clamps sWit 1 "Python Syntax" 300 0 rfl (by rfl)

/-- C3: run_code executes the editor text as a direct subprocess
invocation. Empty (after strip) text only sets the label to a fixed
sentence and spawns nothing; otherwise the stripped text is written to
the temporary file, a child of the current interpreter is spawned, the
temporary file is deleted, and the label is set to the SUCCESS text with
the captured stdout (with a fixed fallback when stdout is empty) on
return code 0, and otherwise to the ERROR text with the return code and
the captured stderr, falling back to stdout. -/
theorem run_code_spec (code : String) (child : ChildResult) :
    (pyStrip code = "" →
      run_code code child = [RunEvent.setOutputLabel "No code to run."]
        ∧ RunEvent.spawnChild ∉ run_code code child)
    ∧ (pyStrip code ≠ "" →
      RunEvent.writeTempFile (pyStrip code) ∈ run_code code child
        ∧ RunEvent.spawnChild ∈ run_code code child
        ∧ RunEvent.unlinkTempFile ∈ run_code code child
        ∧ RunEvent.setOutputLabel (if child.returncode = 0 then "✅ SUCCESS\n" ++ (if child.stdout = "" then "Code ran successfully! (No output)" else child.stdout) else "❌ ERROR (Code " ++ toString child.returncode ++ ")\n" ++ (if child.stderr = "" then child.stdout else child.stderr)) ∈ run_code code child) := by
  constructor
  · intro h
    unfold run_code
    dsimp only
    rw [if_pos h]
    exact ⟨rfl, by simp⟩
  · intro h
    unfold run_code
    dsimp only
    rw [if_neg h]
    refine ⟨?_, ?_, ?_, ?_⟩ <;> simp [runLabel]

/-- A child process run that exits cleanly with some output. -/
def childOk : ChildResult := { returncode := 0, stdout := "hi\n", stderr := "" }

theorem run_code_spec_witness :
    run_code "  " childOk = [RunEvent.setOutputLabel "No code to run."]
      ∧ RunEvent.spawnChild ∈ run_code "print(1)" childOk :=
  ⟨((run_code_spec "  " childOk).1 (by decide)).1,
   ((run_code_spec "print(1)" childOk).2 (by decide)).2.1⟩

/-- C6: the communicate() call is synchronous and blocking — in the
trace of run_code on non-empty code, the event that collects the child's
complete stdout and stderr (which happens only once the child has
exited) strictly precedes every setting of the output label, so the
label is never updated with run results before the child process has
terminated. -/
theorem run_code_blocks_until_exit (code : String) (child : ChildResult)
    (h : pyStrip code ≠ "") :
    ∃ i j, i < j
      ∧ (run_code code child).get? i = some (RunEvent.communicate child.stdout child.stderr)
      ∧ (run_code code child).get? j = some (RunEvent.setOutputLabel (runLabel child))
      ∧ ∀ k t, (run_code code child).get? k = some (RunEvent.setOutputLabel t) → i < k := by
  have hr : run_code code child = [RunEvent.writeTempFile (pyStrip code), RunEvent.spawnChild, RunEvent.communicate child.stdout child.stderr, RunEvent.unlinkTempFile, RunEvent.setOutputLabel (runLabel child)] := by
    unfold run_code
    dsimp only
    rw [if_neg h]
  refine ⟨2, 4, by norm_num, by rw [hr]; rfl, by rw [hr]; rfl, ?_⟩
  intro k t hk
  rw [hr] at hk
  rcases k with _|_|_|_|_|k
  · simp at hk
  · simp at hk
  · simp at hk
  · simp at hk
  · norm_num
  · simp at hk

theorem run_code_blocks_until_exit_witness :
    ∃ i j, i < j
      ∧ (run_code "print(1)" childOk).get? i
          = some (RunEvent.communicate childOk.stdout childOk.stderr)
      ∧ (run_code "print(1)" childOk).get? j
          = some (RunEvent.setOutputLabel (runLabel childOk))
      ∧ ∀ k t, (run_code "print(1)" childOk).get? k
          = some (RunEvent.setOutputLabel t) → i < k :=
  run_code_blocks_until_exit "print(1)" childOk (by decide)

/-- When the regular expression finds nothing in the reply, the scrape
changes nothing and the reply text is untouched. -/
theorem send_to_ai_scrape_none (skills : List (String × Int)) (resp : String)
    (loads : String → Option Json) (h : reSearchUpdates resp = none) :
    send_to_ai_scrape skills resp loads = (skills, resp) := by
  unfold send_to_ai_scrape
  rw [h]

/-- When json.loads raises on the extracted fragment, the scrape changes
nothing and the reply text is untouched. -/
theorem send_to_ai_scrape_loadfail (skills : List (String × Int)) (resp : String)
    (loads : String → Option Json) (frag : String)
    (h1 : reSearchUpdates resp = some frag) (h2 : loads frag = none) :
    send_to_ai_scrape skills resp loads = (skills, resp) := by
  unfold send_to_ai_scrape
  rw [h1]
  dsimp only
  rw [h2]

/-- The skill rows after the scrape are either untouched or the result
of running the update loop on some entry list. -/
theorem send_to_ai_scrape_fst_shape (skills : List (String × Int)) (resp : String)
    (loads : String → Option Json) :
    (send_to_ai_scrape skills resp loads).1 = skills
    ∨ ∃ entries, (send_to_ai_scrape skills resp loads).1 = (applyUpdatesLoop skills entries).1 := by
  unfold send_to_ai_scrape
  split
  · left; rfl
  · split
    · left; rfl
    · split
      · left; rfl
      · split
        · left; rfl
        · dsimp only
          split
          · right; exact ⟨_, rfl⟩
          · right; exact ⟨_, rfl⟩

/-- The reply text after the scrape is the original reply, possibly with
the celebration suffix appended. -/
theorem send_to_ai_scrape_snd_shape (skills : List (String × Int)) (resp : String)
    (loads : String → Option Json) :
    (send_to_ai_scrape skills resp loads).2 = resp
    ∨ (send_to_ai_scrape skills resp loads).2 = resp ++ updatedSuffix := by
  unfold send_to_ai_scrape
  split
  · left; rfl
  · split
    · left; rfl
    · split
      · left; rfl
      · split
        · left; rfl
        · dsimp only
          split
          · right; rfl
          · left; rfl

/-- The completion check at the end of send_to_ai never changes the
skill rows. -/
theorem send_to_ai_reply_fst (skills : List (String × Int)) (resp : String)
    (loads : String → Option Json) :
    (send_to_ai_reply skills resp loads).1 = (send_to_ai_scrape skills resp loads).1 := by
  unfold send_to_ai_reply
  dsimp only
  split <;> rfl

/-- The completion check at the end of send_to_ai at most appends the
completion suffix to the displayed text. -/
theorem send_to_ai_reply_snd (skills : List (String × Int)) (resp : String)
    (loads : String → Option Json) :
    (send_to_ai_reply skills resp loads).2 = (send_to_ai_scrape skills resp loads).2
    ∨ (send_to_ai_reply skills resp loads).2
        = (send_to_ai_scrape skills resp loads).2 ++ completedSuffix := by
  unfold send_to_ai_reply
  dsimp only
  split
  · right; rfl
  · left; rfl

/-- C1: the scrape is best-effort. If the reply holds no fragment
matching the regular expression, or json.loads raises on the extracted
fragment, every skill level is left unchanged; skill levels can change
only when a fragment was found and parsed; and in every case the reply
is displayed in the chat (the displayed text extends the reply). A
parse failure therefore never suppresses the chat response and never
applies any update from the failed parse. -/
theorem send_to_ai_scrape_best_effort (skills : List (String × Int)) (resp : String)
    (loads : String → Option Json) :
    (reSearchUpdates resp = none → (send_to_ai_reply skills resp loads).1 = skills)
    ∧ (∀ frag, reSearchUpdates resp = some frag → loads frag = none →
        (send_to_ai_reply skills resp loads).1 = skills)
    ∧ ((send_to_ai_reply skills resp loads).1 ≠ skills →
        ∃ frag data, reSearchUpdates resp = some frag ∧ loads frag = some data)
    ∧ (∃ t, (send_to_ai_reply skills resp loads).2 = resp ++ t) := by
  refine ⟨?_, ?_, ?_, ?_⟩
  · intro h
    rw [send_to_ai_reply_fst, send_to_ai_scrape_none skills resp loads h]
  · intro frag h1 h2
    rw [send_to_ai_reply_fst, send_to_ai_scrape_loadfail skills resp loads frag h1 h2]
  · intro hne
    rw [send_to_ai_reply_fst] at hne
    cases hre : reSearchUpdates resp with
    | none =>
      rw [send_to_ai_scrape_none skills resp loads hre] at hne
      exact absurd rfl hne
    | some frag =>
      cases hl : loads frag with
      | none =>
        rw [send_to_ai_scrape_loadfail skills resp loads frag hre hl] at hne
        exact absurd rfl hne
      | some data => exact ⟨frag, data, rfl, hl⟩
  · rcases send_to_ai_scrape_snd_shape skills resp loads with h | h <;>
      rcases send_to_ai_reply_snd skills resp loads with h2 | h2
    · exact ⟨"", by rw [h2, h, String.append_empty]⟩
    · exact ⟨completedSuffix, by rw [h2, h]⟩
    · exact ⟨updatedSuffix, by rw [h2, h]⟩
    · exact ⟨updatedSuffix ++ completedSuffix, by rw [h2, h, String.append_assoc]⟩

/-- A small skill profile for instantiating the scrape theorems. -/
def demoSkills : List (String × Int) := [("Python Syntax", 0), ("Debugging", 2)]

theorem send_to_ai_scrape_best_effort_witness :
    (send_to_ai_reply demoSkills "All good." (fun _ => none)).1 = demoSkills
    ∧ (send_to_ai_reply demoSkills "\x7b\"updates\": 1\x7d" (fun _ => none)).1 = demoSkills :=
  ⟨(send_to_ai_scrape_best_effort demoSkills "All good." (fun _ => none)).1 (by rfl),
   (send_to_ai_scrape_best_effort demoSkills "\x7b\"updates\": 1\x7d" (fun _ => none)).2.1
     "\x7b\"updates\": 1\x7d" (by rfl) rfl⟩

/-- Rewriting the level of matching rows leaves the list of names as it
was. -/
theorem map_fst_set_level (l : List (String × Int)) (nm : String) (v : Int) :
    (l.map (fun q => if q.1 == nm then (q.1, v) else q)).map Prod.fst = l.map Prod.fst := by
  induction l with
  | nil => rfl
  | cons a t ih =>
    simp only [List.map_cons]
    cases hb : (a.1 == nm)
    · rw [if_neg (by simp), ih]
    · rw [if_pos rfl, ih]

/-- update_skill_level changes levels only, never the set of names. -/
theorem updateSkillList_names (skills : List (String × Int)) (nm : String) (delta : Int) :
    (updateSkillList skills nm delta).map Prod.fst = skills.map Prod.fst := by
  unfold updateSkillList
  split
  · rfl
  · exact map_fst_set_level skills nm _

/-- The update loop preserves the list of skill names, whatever entries
the parsed updates object holds and wherever it aborts. -/
theorem applyUpdatesLoop_names (entries : List (String × Json)) :
    ∀ skills : List (String × Int),
      ((applyUpdatesLoop skills entries).1).map Prod.fst = skills.map Prod.fst := by
  induction entries with
  | nil => intro skills; rfl
  | cons e rest ih =>
    intro skills
    obtain ⟨nm, v⟩ := e
    simp only [applyUpdatesLoop]
    cases hc : (skills.map Prod.fst).contains nm <;>
      cases v <;> simp [hc, ih, updateSkillList_names]

/-- C5: send_to_ai never changes the set of skill names. Every entry of
a parsed updates object reaches update_skill_level only when its name
already names a row returned by get_skills for the current user, so the
profile holds exactly the same skill names after any chat interaction;
unknown names are silently ignored. -/
theorem send_to_ai_preserves_skill_names (skills : List (String × Int)) (resp : String)
    (loads : String → Option Json) :
    ((send_to_ai_reply skills resp loads).1).map Prod.fst = skills.map Prod.fst := by
  rw [send_to_ai_reply_fst]
  rcases send_to_ai_scrape_fst_shape skills resp loads with h | ⟨entries, h⟩
  · rw [h]
  · rw [h]
    exact applyUpdatesLoop_names entries skills
